import Mathlib

/-!
Verification of `searx/botdetection/link_token.py` (SearXNG's `link_token`
bot-detection method).

The redis store is modelled as an association list of keys, values and
absolute expiry times, together with a reachability flag; time is an
explicit `now : Nat` argument.  Randomness (`random.choice` inside
`get_token`) is modelled by an explicit choice function `g : Nat → Nat`
giving, for each of the 16 positions, an index into the alphabet.
The flask request is modelled by the two header values the code reads
(Accept-Language and User-Agent, empty string when absent), and the
network argument by its compressed string form (`network.compressed`).
-/

namespace LinkToken

/-- The redis DB, as seen by `link_token.py`: a reachability flag
(`redisdb.client()` returning `None` means unreachable) and, when
reachable, key/value pairs each with an absolute expiry instant
(`set(key, value, ex=ttl)` stores expiry `now + ttl`). -/
structure Store where
  reachable : Bool
  data : List (String × String × Nat)
  deriving DecidableEq, Repr

/-- `redis_client.get(key)`: the stored value if the key exists and has not
expired at instant `now`, otherwise absent. -/
def Store.get (s : Store) (now : Nat) (k : String) : Option String :=
  match s.data.lookup k with
  | some (v, e) => if now < e then some v else none
  | none => none

/-- `redis_client.set(key, value, ex=ttl)`: store `v` under `k`, expiring at
`now + ttl`.  The new entry shadows any previous entry for `k`. -/
def Store.set (s : Store) (now : Nat) (k v : String) (ttl : Nat) : Store :=
  { s with data := (k, v, now + ttl) :: s.data }

/-- Remaining time-to-live of key `k` at instant `now` (redis `TTL`):
absent if the key does not exist or has expired. -/
def Store.ttl (s : Store) (now : Nat) (k : String) : Option Nat :=
  match s.data.lookup k with
  | some (_, e) => if now < e then some (e - now) else none
  | none => none

/-- `TOKEN_LIVE_TIME = 600`: livetime (sec) of limiter's CSS token. -/
def TOKEN_LIVE_TIME : Nat := 600

/-- `PING_LIVE_TIME = 3600`: livetime (sec) of the ping-key. -/
def PING_LIVE_TIME : Nat := 3600

/-- `PING_KEY`: prefix of all ping-keys generated by `get_ping_key`. -/
def PING_KEY : String := "SearXNG_limiter.ping"

/-- `TOKEN_KEY`: key under which the current token is stored in the DB. -/
def TOKEN_KEY : String := "SearXNG_limiter.token"

/-- Modelled from the spec: `secret_hash` lives in `searx/redislib.py`,
which is not part of the sources here; the spec describes it as a
deterministic, collision-resistant cryptographic hash of its input string.
We model it as a deterministic polynomial hash of the character codes,
rendered in decimal — only determinism is relied on below. -/
def secret_hash (m : String) : String :=
  "h" ++ toString (m.data.foldl (fun a c => (a * 31 + c.toNat) % 4294967296) 5381)

/-- `string.ascii_lowercase + string.digits`, the alphabet `get_token`
draws from. -/
def token_alphabet : String := "abcdefghijklmnopqrstuvwxyz0123456789"

/-- The random 16-character token built by
`''.join(random.choice(string.ascii_lowercase + string.digits) for _ in range(16))`,
with the random choices supplied by `g`. -/
def random_token (g : Nat → Nat) : String :=
  String.mk ((List.range 16).map (fun i => token_alphabet.data.getD (g i % 36) 'a'))

/-- `get_token()`: returns the current token.  If the store is unreachable
the fixed fallback `'12345678'` is returned; if no (unexpired) token is
stored, a fresh 16-character token is generated, stored with
`TOKEN_LIVE_TIME`, and returned.  Returns the token together with the
resulting store. -/
def get_token (s : Store) (now : Nat) (g : Nat → Nat) : String × Store :=
  if s.reachable then
    match s.get now TOKEN_KEY with
    | some token => (token, s)
    | none =>
      let token := random_token g
      (token, s.set now TOKEN_KEY token TOKEN_LIVE_TIME)
  else
    ("12345678", s)

/-- `token_is_valid(token)`: `token == get_token()`, with `get_token`'s
store effect. -/
def token_is_valid (s : Store) (now : Nat) (g : Nat → Nat) (token : String) :
    Bool × Store :=
  let r := get_token s now g
  (token == r.1, r.2)

/-- `get_ping_key(network, request)`: `PING_KEY + "[" + secret_hash(network.compressed
+ Accept-Language + User-Agent) + "]"`. -/
def get_ping_key (network accept_language user_agent : String) : String :=
  PING_KEY ++ "[" ++ secret_hash (network ++ accept_language ++ user_agent) ++ "]"

/-- `is_suspicious(network, request, renew)`: `False` if the store is
unreachable; `True` if no unexpired ping record exists at the derived key;
otherwise `False`, refreshing the record with `PING_LIVE_TIME` when
`renew` is set.  Returns the verdict together with the resulting store. -/
def is_suspicious (s : Store) (now : Nat)
    (network accept_language user_agent : String) (renew : Bool) :
    Bool × Store :=
  if s.reachable then
    let ping_key := get_ping_key network accept_language user_agent
    match s.get now ping_key with
    | none => (true, s)
    | some _ =>
      if renew then (false, s.set now ping_key "1" PING_LIVE_TIME)
      else (false, s)
  else
    (false, s)

/-- `ping(request, token)`: nothing happens when the store is unreachable
or the token is invalid (though validating the token may itself regenerate
the stored token); otherwise a presence marker is written under the
derived ping key with `PING_LIVE_TIME`.  Network resolution
(`get_real_ip` / `get_network`) is an external collaborator, so the
resolved network is a parameter. -/
def ping (s : Store) (now : Nat) (g : Nat → Nat)
    (network accept_language user_agent : String) (token : String) : Store :=
  if s.reachable then
    let r := token_is_valid s now g token
    if r.1 then
      r.2.set now (get_ping_key network accept_language user_agent) "1" PING_LIVE_TIME
    else
      r.2
  else
    s

/-! ### Store lemmas -/

theorem Store.reachable_set (s : Store) (now : Nat) (k v : String) (ttl : Nat) :
    (s.set now k v ttl).reachable = s.reachable := rfl

theorem Store.get_set_self (s : Store) (now now' : Nat) (k v : String) (ttl : Nat)
    (h : now' < now + ttl) : (s.set now k v ttl).get now' k = some v := by
  simp [Store.get, Store.set, List.lookup_cons, h]

theorem Store.get_set_ne (s : Store) (now now' : Nat) (k k' v : String) (ttl : Nat)
    (h : k' ≠ k) : (s.set now k v ttl).get now' k' = s.get now' k' := by
  have hb : (k' == k) = false := beq_eq_false_iff_ne.mpr h
  simp [Store.get, Store.set, List.lookup_cons, hb]

theorem Store.ttl_set_self (s : Store) (now : Nat) (k v : String) (ttl : Nat)
    (h : 0 < ttl) : (s.set now k v ttl).ttl now k = some ttl := by
  simp [Store.ttl, Store.set, List.lookup_cons, Nat.lt_add_of_pos_right h]

theorem Store.get_val_eq (s : Store) (n n' : Nat) (k : String) (t v : String)
    (h1 : s.get n k = some t) (h2 : s.get n' k = some v) : v = t := by
  unfold Store.get at h1 h2
  cases hl : s.data.lookup k with
  | none => simp [hl] at h1
  | some p =>
    obtain ⟨w, e⟩ := p
    simp only [hl] at h1 h2
    split at h1
    · split at h2
      · simp only [Option.some.injEq] at h1 h2; rw [← h2]; exact h1
      · exact absurd h2 (by simp)
    · exact absurd h1 (by simp)

/-- The ping keys and the token key never collide: a ping key is strictly
longer than `TOKEN_KEY`. -/
theorem get_ping_key_ne_token_key (n a u : String) :
    get_ping_key n a u ≠ TOKEN_KEY := by
  intro h
  have hlen := congrArg String.length h
  have h1 : PING_KEY.length = 20 := rfl
  have h2 : TOKEN_KEY.length = 21 := rfl
  have h3 : "[".length = 1 := rfl
  have h4 : "]".length = 1 := rfl
  simp only [get_ping_key, String.length_append, h1, h2, h3, h4] at hlen
  omega

/-- Shared helper: with the store unreachable, `get_token` returns the
fallback constant and leaves the store untouched. -/
theorem get_token_eq_fallback (s : Store) (now : Nat) (g : Nat → Nat)
    (h : s.reachable = false) : get_token s now g = ("12345678", s) := by
  unfold get_token
  rw [h]
  simp

/-! ### Claims -/

/-- C1: `is_suspicious` returns `false` when the store is unreachable;
with a reachable store it returns `true` exactly when no unexpired ping
record exists at the derived key, and `false` when one does — i.e. the
verdict is `reachable && no-ping`. -/
theorem is_suspicious_characterization (s : Store) (now : Nat)
    (network accept_language user_agent : String) (renew : Bool) :
    (is_suspicious s now network accept_language user_agent renew).1 =
      (s.reachable &&
        !(s.get now (get_ping_key network accept_language user_agent)).isSome) := by
  unfold is_suspicious
  cases hr : s.reachable with
  | false => simp
  | true =>
    cases hp : s.get now (get_ping_key network accept_language user_agent) with
    | none => simp [hp]
    | some v => cases renew <;> simp [hp]

/-- C3: whenever the store is unreachable, `get_token` deterministically
returns the fixed fallback constant `"12345678"` and performs no store
write (the store is returned unchanged). -/
theorem get_token_unreachable_fallback (s : Store) (now : Nat) (g : Nat → Nat)
    (h : s.reachable = false) : get_token s now g = ("12345678", s) :=
  get_token_eq_fallback s now g h

/-- Witness for C3 at a concrete unreachable store. -/
theorem get_token_unreachable_fallback_witness :
    get_token { reachable := false, data := [] } 0 (fun _ => 0) =
      ("12345678", { reachable := false, data := [] }) :=
  get_token_unreachable_fallback { reachable := false, data := [] } 0 (fun _ => 0) rfl

/-- C5: `token_is_valid candidate` is `true` iff `candidate` equals the
value `get_token` returns in that state, and its store effect is exactly
`get_token`'s (the implicit regeneration, nothing more). -/
theorem token_is_valid_iff_eq_get_token (s : Store) (now : Nat) (g : Nat → Nat)
    (candidate : String) :
    ((token_is_valid s now g candidate).1 = true ↔
        candidate = (get_token s now g).1) ∧
      (token_is_valid s now g candidate).2 = (get_token s now g).2 := by
  constructor
  · simp [token_is_valid]
  · rfl

/-- C6: `get_ping_key` is deterministic — two calls with identical
network / Accept-Language / User-Agent inputs yield identical keys. -/
theorem get_ping_key_deterministic (n1 a1 u1 n2 a2 u2 : String)
    (hn : n1 = n2) (ha : a1 = a2) (hu : u1 = u2) :
    get_ping_key n1 a1 u1 = get_ping_key n2 a2 u2 := by
  rw [hn, ha, hu]

/-- Witness for C6 at concrete inputs. -/
theorem get_ping_key_deterministic_witness :
    get_ping_key "203.0.113.0/24" "en-US" "TestBot/1.0" =
      get_ping_key "203.0.113.0/24" "en-US" "TestBot/1.0" :=
  get_ping_key_deterministic "203.0.113.0/24" "en-US" "TestBot/1.0"
    "203.0.113.0/24" "en-US" "TestBot/1.0" rfl rfl rfl

/-- C10: with the store unreachable, `token_is_valid candidate` holds
exactly when `candidate` is the fixed fallback string `"12345678"`: the
degraded-mode token check is comparison against a documented constant. -/
theorem token_is_valid_unreachable (s : Store) (now : Nat) (g : Nat → Nat)
    (candidate : String) (h : s.reachable = false) :
    (token_is_valid s now g candidate).1 = true ↔ candidate = "12345678" := by
  simp [token_is_valid, get_token_eq_fallback s now g h]

/-- Witness for C10 at a concrete unreachable store and candidate. -/
theorem token_is_valid_unreachable_witness :
    ((token_is_valid { reachable := false, data := [] } 0 (fun _ => 0)
        "12345678").1 = true ↔ "12345678" = "12345678") :=
  token_is_valid_unreachable { reachable := false, data := [] } 0 (fun _ => 0)
    "12345678" rfl

/-- C7: with a reachable store holding a token that has not expired at
either call instant, two successive `get_token` calls (the second on the
state left by the first) return the same value. -/
theorem get_token_stable (s : Store) (now now' : Nat) (g g' : Nat → Nat) (t : String)
    (hr : s.reachable = true) (h1 : s.get now TOKEN_KEY = some t)
    (h2 : (s.get now' TOKEN_KEY).isSome = true) :
    (get_token (get_token s now g).2 now' g').1 = (get_token s now g).1 := by
  have hfst : get_token s now g = (t, s) := by
    simp [get_token, hr, h1]
  rw [hfst]
  cases hv : s.get now' TOKEN_KEY with
  | none => rw [hv] at h2; simp at h2
  | some v =>
    have hvt : v = t := Store.get_val_eq s now now' TOKEN_KEY t v h1 hv
    simp [get_token, hr, hv, hvt]

/-- Witness for C7 at a concrete store holding an unexpired token. -/
theorem get_token_stable_witness :
    (get_token
        (get_token { reachable := true, data := [(TOKEN_KEY, "abc", 100)] } 0
          (fun _ => 0)).2 1 (fun _ => 1)).1 =
      (get_token { reachable := true, data := [(TOKEN_KEY, "abc", 100)] } 0
        (fun _ => 0)).1 :=
  get_token_stable { reachable := true, data := [(TOKEN_KEY, "abc", 100)] } 0 1
    (fun _ => 0) (fun _ => 1) "abc" rfl (by decide) (by decide)

/-- C8: for every store state, reachable or not, validating the value just
returned by `get_token` — against the state `get_token` left behind, at
the same instant — succeeds. -/
theorem token_is_valid_roundtrip (s : Store) (now : Nat) (g g' : Nat → Nat) :
    (token_is_valid (get_token s now g).2 now g' (get_token s now g).1).1 = true := by
  cases hr : s.reachable with
  | false =>
    rw [get_token_eq_fallback s now g hr]
    simp [token_is_valid, get_token_eq_fallback s now g' hr]
  | true =>
    cases ht : s.get now TOKEN_KEY with
    | some t =>
      have hfst : get_token s now g = (t, s) := by simp [get_token, hr, ht]
      rw [hfst]
      simp [token_is_valid, get_token, hr, ht]
    | none =>
      have hfst : get_token s now g =
          (random_token g, s.set now TOKEN_KEY (random_token g) TOKEN_LIVE_TIME) := by
        simp [get_token, hr, ht]
      have hr' : (s.set now TOKEN_KEY (random_token g) TOKEN_LIVE_TIME).reachable
          = true := by
        rw [Store.reachable_set]; exact hr
      have hg : (s.set now TOKEN_KEY (random_token g) TOKEN_LIVE_TIME).get now
          TOKEN_KEY = some (random_token g) :=
        Store.get_set_self s now now TOKEN_KEY (random_token g) TOKEN_LIVE_TIME
          (Nat.lt_add_of_pos_right (by decide))
      rw [hfst]
      simp [token_is_valid, get_token, hr', hg]

/-- C9: on a reachable store holding an unexpired ping record at the
derived key, `is_suspicious` with `renew := true` resets the record's
remaining TTL to the full `PING_LIVE_TIME` window, while with
`renew := false` it leaves the store (and hence the record's TTL)
unchanged. -/
theorem is_suspicious_renew_ttl (s : Store) (now : Nat)
    (network accept_language user_agent v : String)
    (hr : s.reachable = true)
    (hp : s.get now (get_ping_key network accept_language user_agent) = some v) :
    (is_suspicious s now network accept_language user_agent true).2.ttl now
        (get_ping_key network accept_language user_agent) = some PING_LIVE_TIME ∧
      (is_suspicious s now network accept_language user_agent false).2 = s := by
  constructor
  · have h2 : (is_suspicious s now network accept_language user_agent true).2 =
        s.set now (get_ping_key network accept_language user_agent) "1"
          PING_LIVE_TIME := by
      simp [is_suspicious, hr, hp]
    rw [h2]
    exact Store.ttl_set_self s now _ "1" PING_LIVE_TIME (by decide)
  · simp [is_suspicious, hr, hp]

/-- Witness for C9 at a concrete store holding an unexpired ping record. -/
theorem is_suspicious_renew_ttl_witness :
    ((is_suspicious
          { reachable := true, data := [(get_ping_key "n" "a" "u", "1", 10)] } 0
          "n" "a" "u" true).2.ttl 0 (get_ping_key "n" "a" "u") =
        some PING_LIVE_TIME ∧
      (is_suspicious
          { reachable := true, data := [(get_ping_key "n" "a" "u", "1", 10)] } 0
          "n" "a" "u" false).2 =
        { reachable := true, data := [(get_ping_key "n" "a" "u", "1", 10)] }) :=
  is_suspicious_renew_ttl
    { reachable := true, data := [(get_ping_key "n" "a" "u", "1", 10)] } 0
    "n" "a" "u" "1" rfl (by decide)

/-- Shared helper: `getD` stays inside any property satisfied by every list
element and by the default. -/
theorem list_all_getD {α : Type} (p : α → Bool) (l : List α) (d : α) (i : Nat)
    (hd : p d = true) (hl : l.all p = true) : p (l.getD i d) = true := by
  induction l generalizing i with
  | nil => simpa [List.getD] using hd
  | cons x xs ih =>
    simp only [List.all_cons, Bool.and_eq_true] at hl
    cases i with
    | zero => simpa [List.getD] using hl.1
    | succ n => simpa [List.getD] using ih n hl.2

/-- C4 counterexample: with the store unreachable, `get_token` returns the
documented fallback `"12345678"`, a string of length 8 — so it is not the
case that every string returned by `get_token` has length 16. -/
theorem get_token_length_counterexample :
    (get_token { reachable := false, data := [] } 0 (fun _ => 0)).1.length ≠ 16 := by
  decide

/-- C4 amended: when the store is reachable and holds no (unexpired)
token, the value `get_token` generates is a 16-character string of
lowercase letters and digits, stored under `TOKEN_KEY` with the fixed TTL
`TOKEN_LIVE_TIME` (600 s); the unreachable-store fallback is the
8-character digit string `"12345678"` and is exempt from the length-16
shape. -/
theorem get_token_generated_spec (s : Store) (now : Nat) (g : Nat → Nat)
    (hr : s.reachable = true) (hn : s.get now TOKEN_KEY = none) :
    (get_token s now g).1.length = 16 ∧
      (get_token s now g).1.data.all (fun c => c.isLower || c.isDigit) = true ∧
      (get_token s now g).2.get now TOKEN_KEY = some (get_token s now g).1 ∧
      (get_token s now g).2.ttl now TOKEN_KEY = some TOKEN_LIVE_TIME := by
  have hfst : get_token s now g =
      (random_token g, s.set now TOKEN_KEY (random_token g) TOKEN_LIVE_TIME) := by
    simp [get_token, hr, hn]
  rw [hfst]
  refine ⟨?_, ?_, ?_, ?_⟩
  · simp [random_token]
  · have hmem : ∀ c ∈ (random_token g).data, (c.isLower || c.isDigit) = true := by
      intro c hc
      simp only [random_token, String.data, List.mem_map, List.mem_range] at hc
      obtain ⟨i, _, hci⟩ := hc
      rw [← hci]
      exact list_all_getD (fun c => c.isLower || c.isDigit) token_alphabet.data 'a'
        (g i % 36) (by decide) (by decide)
    exact List.all_eq_true.mpr hmem
  · exact Store.get_set_self s now now TOKEN_KEY (random_token g) TOKEN_LIVE_TIME
      (Nat.lt_add_of_pos_right (by decide))
  · exact Store.ttl_set_self s now TOKEN_KEY (random_token g) TOKEN_LIVE_TIME
      (by decide)

/-- Witness for the amended C4 at a concrete reachable, empty store. -/
theorem get_token_generated_spec_witness :
    ((get_token { reachable := true, data := [] } 0 (fun _ => 0)).1.length = 16 ∧
      (get_token { reachable := true, data := [] } 0 (fun _ => 0)).1.data.all
          (fun c => c.isLower || c.isDigit) = true ∧
      (get_token { reachable := true, data := [] } 0 (fun _ => 0)).2.get 0 TOKEN_KEY =
        some (get_token { reachable := true, data := [] } 0 (fun _ => 0)).1 ∧
      (get_token { reachable := true, data := [] } 0 (fun _ => 0)).2.ttl 0 TOKEN_KEY =
        some TOKEN_LIVE_TIME) :=
  get_token_generated_spec { reachable := true, data := [] } 0 (fun _ => 0) rfl rfl

/-- C2 counterexample: on a reachable store holding no token, `ping` with
the invalid token `"stale"` leaves no ping record but does change the
store — validating the token regenerates and stores a fresh token — so
`ping` is not write-free whenever the token is invalid. -/
theorem ping_invalid_writes_counterexample :
    ({ reachable := true, data := [] } : Store).reachable = true ∧
      (token_is_valid { reachable := true, data := [] } 0 (fun _ => 0)
          "stale").1 = false ∧
      ping { reachable := true, data := [] } 0 (fun _ => 0) "n" "a" "u" "stale" ≠
        { reachable := true, data := [] } := by
  decide

/-- C2 amended: `ping` never creates a ping record unless the store is
reachable and the token is currently valid — with an unreachable store the
store is wholly unchanged, and with an invalid token the derived ping key
is unchanged (the only possible write is the token regeneration implicit
in validation); when the store is reachable and the token valid, a
presence marker is written at the derived ping key with TTL
`PING_LIVE_TIME` (3600 s). -/
theorem ping_spec (s : Store) (now now' : Nat) (g : Nat → Nat)
    (network accept_language user_agent token : String) :
    (s.reachable = false →
        ping s now g network accept_language user_agent token = s) ∧
      ((token_is_valid s now g token).1 = false →
        (ping s now g network accept_language user_agent token).get now'
            (get_ping_key network accept_language user_agent) =
          s.get now' (get_ping_key network accept_language user_agent)) ∧
      (s.reachable = true → (token_is_valid s now g token).1 = true →
        (ping s now g network accept_language user_agent token).get now
            (get_ping_key network accept_language user_agent) = some "1" ∧
        (ping s now g network accept_language user_agent token).ttl now
            (get_ping_key network accept_language user_agent) =
          some PING_LIVE_TIME) := by
  refine ⟨?_, ?_, ?_⟩
  · intro h
    simp [ping, h]
  · intro hv
    cases hr : s.reachable with
    | false => simp [ping, hr]
    | true =>
      have hping : ping s now g network accept_language user_agent token =
          (token_is_valid s now g token).2 := by
        simp [ping, hr, hv]
      rw [hping]
      cases ht : s.get now TOKEN_KEY with
      | some t =>
        have : (token_is_valid s now g token).2 = s := by
          simp [token_is_valid, get_token, hr, ht]
        rw [this]
      | none =>
        have : (token_is_valid s now g token).2 =
            s.set now TOKEN_KEY (random_token g) TOKEN_LIVE_TIME := by
          simp [token_is_valid, get_token, hr, ht]
        rw [this]
        exact Store.get_set_ne s now now' TOKEN_KEY _ (random_token g)
          TOKEN_LIVE_TIME
          (get_ping_key_ne_token_key network accept_language user_agent)
  · intro hr hv
    have hping : ping s now g network accept_language user_agent token =
        (token_is_valid s now g token).2.set now
          (get_ping_key network accept_language user_agent) "1"
          PING_LIVE_TIME := by
      simp [ping, hr, hv]
    rw [hping]
    constructor
    · exact Store.get_set_self _ now now _ "1" PING_LIVE_TIME
        (Nat.lt_add_of_pos_right (by decide))
    · exact Store.ttl_set_self _ now _ "1" PING_LIVE_TIME (by decide)

/-- Witness for the amended C2: unreachable store, `ping` is the
identity. -/
theorem ping_spec_witness :
    ping { reachable := false, data := [] } 0 (fun _ => 0) "n" "a" "u" "x" =
      { reachable := false, data := [] } :=
  (ping_spec { reachable := false, data := [] } 0 0 (fun _ => 0) "n" "a" "u" "x").1
    rfl

end LinkToken
